import Mathlib

/-!
Verification development for the CloudPilot backend (FastAPI + OpenAI +
boto3).  The Python sources under `app/` are shallowly embedded:

* pure computations are translated into Lean functions;
* the AWS SDK, the OpenAI client, the Bedrock runtime and `json.loads`
  are modelled as explicit oracle parameters (their outcome is an input
  of the embedded function), mirroring exactly where the Python code
  consults them and how it reacts to each outcome;
* Python floats are modelled as exact rationals (`Rat`); `round(x, 2)`
  is modelled as round-half-to-even on the exact rational, and float
  formatting is modelled for two-decimal values;
* Python exceptions are modelled with `Except String`, carrying `str(e)`.

Each embedded definition carries the name of the Python callable it
translates.
-/

set_option maxRecDepth 8192

/-- Python/JSON values as produced and consumed by the service
(`json.dumps` / `json.loads` payloads).  Python floats are carried as
exact rationals in the `flt` constructor, ints in `num`. -/
inductive Json where
  | null
  | bool (b : Bool)
  | num (n : Int)
  | flt (q : Rat)
  | str (s : String)
  | arr (elems : List Json)
  | obj (fields : List (String × Json))

/-- Floor of a rational as an integer (used to model float formatting). -/
def ratFloor (q : Rat) : Int := Int.fdiv q.num q.den

/-- Round-half-to-even of a rational, modelling Python `round` on the
exact value. -/
def roundHalfEven (q : Rat) : Int :=
  let f := ratFloor q
  let r := q - (f : Rat)
  if r < (1 : Rat) / 2 then f
  else if (1 : Rat) / 2 < r then f + 1
  else if f % 2 = 0 then f else f + 1

/-- Python `round(q, 2)` modelled on the exact rational. -/
def pyRound2 (q : Rat) : Rat := (roundHalfEven (q * 100) : Rat) / 100

/-- Python `repr` of a float whose value has at most two decimals
(e.g. `5.0` prints as "5.0", `5.24` as "5.24", `5.2` as "5.2"). -/
def fmtFloat (q : Rat) : String :=
  let sign := if q < 0 then "-" else ""
  let aq := if q < 0 then -q else q
  let ip := ratFloor aq
  let hund := (ratFloor ((aq - (ip : Rat)) * 100)).toNat
  let d1 := hund / 10
  let d2 := hund % 10
  if d2 = 0 then sign ++ toString ip ++ "." ++ toString d1
  else sign ++ toString ip ++ "." ++ toString d1 ++ toString d2

/-- Python format specifier `:.2f` (always two decimals) for values with
at most two decimals. -/
def fmtFixed2 (q : Rat) : String :=
  let sign := if q < 0 then "-" else ""
  let aq := if q < 0 then -q else q
  let ip := ratFloor aq
  let hund := (ratFloor ((aq - (ip : Rat)) * 100)).toNat
  sign ++ toString ip ++ "." ++ (if hund < 10 then "0" ++ toString hund else toString hund)

/-- Escape of one character inside a JSON string literal. -/
def jsonEscapeChar (c : Char) : String :=
  if c = '\\' then "\\\\" else if c = '\"' then "\\\"" else c.toString

/-- Escape of a string inside a JSON string literal. -/
def jsonEscape (s : String) : String := String.join (s.data.map jsonEscapeChar)

mutual

/-- Python `json.dumps` with its default separators (", " and ": "). -/
def Json.dumps : Json → String
  | .null => "null"
  | .bool true => "true"
  | .bool false => "false"
  | .num n => toString n
  | .flt q => fmtFloat q
  | .str s => "\"" ++ jsonEscape s ++ "\""
  | .arr elems => "[" ++ dumpsList elems ++ "]"
  | .obj fields => "\x7b" ++ dumpsFields fields ++ "\x7d"

/-- Comma-separated serialization of a JSON array body. -/
def dumpsList : List Json → String
  | [] => ""
  | [x] => Json.dumps x
  | x :: y :: rest => Json.dumps x ++ ", " ++ dumpsList (y :: rest)

/-- Comma-separated serialization of a JSON object body. -/
def dumpsFields : List (String × Json) → String
  | [] => ""
  | [(k, v)] => "\"" ++ jsonEscape k ++ "\": " ++ Json.dumps v
  | (k, v) :: y :: rest =>
    "\"" ++ jsonEscape k ++ "\": " ++ Json.dumps v ++ ", " ++ dumpsFields (y :: rest)

end

/-- `app.schemas.base.AWSCredentials` (pydantic model). -/
structure AWSCredentials where
  accessKeyId : String
  secretAccessKey : String
  region : String := "ap-south-1"

/-- `app.tools.aws_tools.AWSResponse`: the uniform result envelope every
tool operation returns. -/
structure AWSResponse where
  success : Bool
  data : Json := Json.null
  message : Option String := none
  requires_credentials : Bool := false

/-- Result of running one tool operation together with whether any AWS
SDK (network) call was issued during the run. -/
structure ToolRun where
  response : AWSResponse
  networkCalled : Bool

/-- Raw S3 listing for one bucket as the paginator delivers it: the
bucket name and the pages of object sizes (a page without a `Contents`
key is an empty page). -/
structure BucketPages where
  name : String
  pages : List (List Nat)

/-- Total byte size of a bucket (sum over all pages, as computed by the
nested loops in the Python code). -/
def bucketSizeBytes (b : BucketPages) : Nat := (b.pages.map List.sum).sum

/-- Number of objects in a bucket (sum of `len(page['Contents'])`). -/
def bucketFileCount (b : BucketPages) : Nat := (b.pages.map List.length).sum

/-- `round(size / (1024 * 1024), 2)` from the Python code. -/
def mb2 (bytes : Nat) : Rat := pyRound2 ((bytes : Rat) / (1024 * 1024))

/-- Outcome of the AWS SDK phase of a tool call: the raw service data on
success, a `botocore` `ClientError` with its error code and rendered
`str(e)`, or any other exception with its `str(e)`. -/
inductive SDKOutcome (α : Type) where
  | ok (a : α)
  | clientError (code : String) (text : String)
  | otherError (text : String)

/-- Entry of the `data` payload built by `get_s3_bucket_sizes`. -/
def s3SizesBucketJson (b : BucketPages) : Json :=
  Json.obj [("name", Json.str b.name),
    ("size_bytes", Json.num (bucketSizeBytes b)),
    ("size_mb", Json.flt (mb2 (bucketSizeBytes b)))]

/-- `AWSTools.get_s3_bucket_sizes` (app/tools/aws_tools.py).  The SDK
oracle covers `list_buckets` plus the per-bucket pagination; any
`ClientError` raised there lands in the single `except ClientError`
handler of the source. -/
def get_s3_bucket_sizes (credentials : Option AWSCredentials)
    (sdk : SDKOutcome (List BucketPages)) : ToolRun :=
  match credentials with
  | none =>
    ⟨{ success := false,
       message := some "To list your S3 buckets and their sizes, I\x27ll need your AWS credentials. Please provide them securely.",
       requires_credentials := true }, false⟩
  | some _ =>
    match sdk with
    | .ok rawBuckets =>
      ⟨{ success := true,
         data := Json.arr (rawBuckets.map s3SizesBucketJson),
         message := some ("Successfully retrieved information for " ++
           toString rawBuckets.length ++ " bucket(s)") }, true⟩
    | .clientError code text =>
      ⟨(if code = "InvalidAccessKeyId" then
          { success := false,
            message := some "The AWS Access Key ID you provided is invalid. Please check your credentials.",
            requires_credentials := true }
        else if code = "SignatureDoesNotMatch" then
          { success := false,
            message := some "The AWS Secret Access Key you provided is invalid. Please check your credentials.",
            requires_credentials := true }
        else if code = "AccessDenied" then
          { success := false,
            message := some "Your AWS credentials don\x27t have permission to list S3 buckets. Please check your IAM permissions.",
            requires_credentials := true }
        else
          { success := false,
            message := some ("AWS error: " ++ text),
            requires_credentials := false }), true⟩
    | .otherError text =>
      ⟨{ success := false,
         message := some ("Error getting S3 bucket sizes: " ++ text),
         requires_credentials := false }, true⟩

/-- One EC2 instance as read out of `describe_instances`. -/
structure EC2Inst where
  instanceId : String
  instanceType : String
  state : String
  publicIp : Option String
  privateIp : Option String

/-- Entry of the `data` payload built by `list_ec2_instances`
(`instance.get('PublicIpAddress', 'N/A')` etc.). -/
def ec2InstanceJson (i : EC2Inst) : Json :=
  Json.obj [("id", Json.str i.instanceId),
    ("type", Json.str i.instanceType),
    ("state", Json.str i.state),
    ("public_ip", Json.str (i.publicIp.getD "N/A")),
    ("private_ip", Json.str (i.privateIp.getD "N/A"))]

/-- `AWSTools.list_ec2_instances` (app/tools/aws_tools.py).  The raw SDK
data is the list of reservations, each carrying its instances; the
source flattens them with two nested loops. -/
def list_ec2_instances (credentials : Option AWSCredentials)
    (sdk : SDKOutcome (List (List EC2Inst))) : ToolRun :=
  match credentials with
  | none =>
    ⟨{ success := false,
       message := some "To list your EC2 instances, I\x27ll need your AWS credentials. Please provide them securely.",
       requires_credentials := true }, false⟩
  | some _ =>
    match sdk with
    | .ok reservations =>
      ⟨{ success := true,
         data := Json.arr (reservations.flatten.map ec2InstanceJson),
         message := some ("Successfully retrieved information for " ++
           toString reservations.flatten.length ++ " instance(s)") }, true⟩
    | .clientError code text =>
      ⟨(if code = "InvalidAccessKeyId" ∨ code = "SignatureDoesNotMatch" then
          { success := false,
            message := some "Invalid AWS credentials provided. Please check your Access Key ID and Secret Access Key.",
            requires_credentials := true }
        else if code = "AccessDenied" then
          { success := false,
            message := some "Your AWS credentials don\x27t have permission to list EC2 instances. Please check your IAM permissions.",
            requires_credentials := true }
        else
          { success := false,
            message := some ("AWS error: " ++ text),
            requires_credentials := false }), true⟩
    | .otherError text =>
      ⟨{ success := false,
         message := some ("Error listing EC2 instances: " ++ text),
         requires_credentials := false }, true⟩

/-- `AWSTools.describe_iam_role` (app/tools/aws_tools.py).  On success
the SDK oracle yields the opaque `role['Role']` object and the
`AttachedPolicies` list. -/
def describe_iam_role (role_name : String) (credentials : Option AWSCredentials)
    (sdk : SDKOutcome (Json × Json)) : ToolRun :=
  match credentials with
  | none =>
    ⟨{ success := false,
       message := some ("To describe the IAM role \x27" ++ role_name ++
         "\x27, I\x27ll need your AWS credentials. Please provide them securely."),
       requires_credentials := true }, false⟩
  | some _ =>
    match sdk with
    | .ok rawRole =>
      ⟨{ success := true,
         data := Json.obj [("role", rawRole.1), ("attached_policies", rawRole.2)],
         message := some ("Successfully retrieved details for IAM role \x27" ++
           role_name ++ "\x27") }, true⟩
    | .clientError code text =>
      ⟨(if code = "InvalidAccessKeyId" ∨ code = "SignatureDoesNotMatch" then
          { success := false,
            message := some "Invalid AWS credentials provided. Please check your Access Key ID and Secret Access Key.",
            requires_credentials := true }
        else if code = "AccessDenied" then
          { success := false,
            message := some "Your AWS credentials don\x27t have permission to access IAM roles. Please check your IAM permissions.",
            requires_credentials := true }
        else
          { success := false,
            message := some ("AWS error: " ++ text),
            requires_credentials := false }), true⟩
    | .otherError text =>
      ⟨{ success := false,
         message := some ("Error describing IAM role: " ++ text),
         requires_credentials := false }, true⟩

/-- Python rendering of an optional string inside an f-string
(`None` prints as "None"). -/
def pyOptStr : Option String → String
  | some s => s
  | none => "None"

/-- Outcome of the SDK phase of `get_s3_bucket_file_count`: a
`ClientError` from `list_buckets`, a `ClientError` while paginating one
bucket (carrying that bucket's name), a clean listing, or any other
exception. -/
inductive S3FCOutcome where
  | listError (code : String) (text : String)
  | pageError (failing : String) (code : String) (text : String)
  | allOk (buckets : List BucketPages)
  | boom (text : String)

/-- Entry of the `bucket_stats` payload built by
`get_s3_bucket_file_count`. -/
def bucketStatJson (b : BucketPages) : Json :=
  Json.obj [("bucket_name", Json.str b.name),
    ("file_count", Json.num (bucketFileCount b)),
    ("total_size_bytes", Json.num (bucketSizeBytes b)),
    ("total_size_mb", Json.flt (mb2 (bucketSizeBytes b)))]

/-- The middle `except ClientError` handler of
`get_s3_bucket_file_count` (lines 284-309 of aws_tools.py); its
not-found branch renders the `bucket_name` argument, which may be
`None`. -/
def s3fcClientErrorResponse (bucket_name : Option String) (code text : String) : AWSResponse :=
  if code = "NoSuchBucket" then
    { success := false,
      message := some ("The specified bucket \x27" ++ pyOptStr bucket_name ++ "\x27 does not exist"),
      requires_credentials := false }
  else if code = "InvalidAccessKeyId" ∨ code = "SignatureDoesNotMatch" then
    { success := false,
      message := some "Invalid AWS credentials provided. Please check your Access Key ID and Secret Access Key.",
      requires_credentials := true }
  else if code = "AccessDenied" then
    { success := false,
      message := some "Your AWS credentials don\x27t have permission to list objects in S3 buckets. Please check your IAM permissions.",
      requires_credentials := true }
  else
    { success := false,
      message := some ("AWS error: " ++ text),
      requires_credentials := false }

/-- `AWSTools.get_s3_bucket_file_count` (app/tools/aws_tools.py).  A
`ClientError` during pagination is answered directly when its code is
`NoSuchBucket` (naming the failing bucket) and re-raised to the middle
handler otherwise; the success branch formats a one-bucket or a
multi-bucket summary message. -/
def get_s3_bucket_file_count (bucket_name : Option String)
    (credentials : Option AWSCredentials) (sdk : S3FCOutcome) : ToolRun :=
  match credentials with
  | none =>
    ⟨{ success := false,
       message := some "To count files in your S3 buckets, I\x27ll need your AWS credentials. Please provide them securely.",
       requires_credentials := true }, false⟩
  | some _ =>
    match sdk with
    | .boom text =>
      ⟨{ success := false,
         message := some ("Error counting S3 files: " ++ text),
         requires_credentials := false }, true⟩
    | .listError code text => ⟨s3fcClientErrorResponse bucket_name code text, true⟩
    | .pageError failing code text =>
      ⟨(if code = "NoSuchBucket" then
          { success := false,
            message := some ("The specified bucket \x27" ++ failing ++ "\x27 does not exist"),
            requires_credentials := false }
        else s3fcClientErrorResponse bucket_name code text), true⟩
    | .allOk buckets =>
      ⟨{ success := true,
         data := Json.arr (buckets.map bucketStatJson),
         message := some (match buckets with
           | [b] => "Bucket \x27" ++ b.name ++ "\x27 contains " ++
               toString (bucketFileCount b) ++ " files (" ++
               fmtFloat (mb2 (bucketSizeBytes b)) ++ " MB)"
           | _ => "Found " ++ toString ((buckets.map bucketFileCount).sum) ++
               " files across " ++ toString buckets.length ++
               " buckets (Total size: " ++
               fmtFixed2 ((buckets.map (fun b => mb2 (bucketSizeBytes b))).sum) ++
               " MB)") }, true⟩

/-- `app.schemas.base.MessageRole` (string enum). -/
inductive MessageRole where
  | user
  | assistant
  | system

/-- String value of a `MessageRole` (pydantic serializes the enum to its
string value). -/
def MessageRole.toStr : MessageRole → String
  | .user => "user"
  | .assistant => "assistant"
  | .system => "system"

/-- `app.schemas.base.Message`. -/
structure Message where
  role : MessageRole
  content : String

/-- Value stored in a tool call's argument dict: either parsed JSON from
the model, or the `AWSCredentials` object the orchestrator injects under
the key "credentials". -/
inductive ArgVal where
  | json (j : Json)
  | creds (c : AWSCredentials)

/-- Entry of `aws_resources_affected`: the operation name and its
parameters with the "credentials" key removed. -/
structure Affected where
  operation : String
  parameters : List (String × ArgVal)

/-- `app.schemas.base.ChatResponse` (pydantic model with its defaults). -/
structure ChatResponse where
  response : Option String := none
  actions_taken : List String := []
  aws_resources_affected : List Affected := []
  validation_results : Option Json := none
  requiresCredentials : Option Bool := none
  error : Option String := none

/-- One tool call of the model's reply.  `arguments` is the outcome of
`json.loads(tool_call.function.arguments)`: the parsed dict, or the
`str(e)` of the `JSONDecodeError` it raised. -/
structure ToolCall where
  id : String
  name : String
  arguments : Except String (List (String × ArgVal))

/-- Message of the OpenAI conversation list: a plain role/content entry,
the assistant tool-call record appended after a tool run, or a tool
result message carrying the serialized result. -/
inductive OMessage where
  | plain (role : String) (content : String)
  | assistantToolCall (id : String) (name : String) (call : ToolCall)
  | tool (content : String) (id : String)

/-- Reply message of the first OpenAI completion
(`response.choices[0].message`): text content and requested tool calls
(`None` and `[]` are both falsy in the source's `if message.tool_calls`). -/
structure ModelMessage where
  content : Option String
  tool_calls : List ToolCall

/-- Result of one `_execute_function` dispatch: an `AWSResponse`, some
other return value, or an exception carrying `str(e)`. -/
inductive ExecResult where
  | awsResp (r : AWSResponse)
  | other (j : Json)
  | raised (msg : String)

/-- `OrchestratorAgent.aws_operations` (app/agents/orchestrator.py lines
36-45): the dict literal whose values are all `True`, so membership and
`.get(name, False)` coincide. -/
def aws_operations : List String :=
  ["get_s3_bucket_sizes", "list_ec2_instances", "describe_iam_role",
   "create_s3_bucket", "create_lambda_function", "create_iam_role",
   "assign_policy_to_role", "get_s3_bucket_file_count"]

/-- `OrchestratorAgent._requires_aws_credentials`:
`self.aws_operations.get(function_name, False)`. -/
def _requires_aws_credentials (function_name : String) : Bool :=
  aws_operations.contains function_name

/-- Names of the tools declared in `OrchestratorAgent.tools` (the static
schema list sent to the model, lines 47-218). -/
def orchestratorToolNames : List String :=
  ["get_s3_bucket_file_count", "get_s3_bucket_sizes", "list_ec2_instances",
   "describe_iam_role", "suggest_iam_policy", "create_s3_bucket",
   "create_lambda_function", "create_iam_role", "assign_policy_to_role"]

/-- Attributes defined on `AWSTools` (app/tools/aws_tools.py): what
`hasattr(self.aws_tools, function_name)` can find. -/
def awsToolsMethods : List String :=
  ["session", "_init_session", "_get_client", "get_s3_bucket_sizes",
   "list_ec2_instances", "describe_iam_role", "get_s3_bucket_file_count"]

/-- `OrchestratorAgent._execute_function` (lines 367-376): raises
`Unknown function` when `AWSTools` has no such attribute, otherwise
calls the tool; `toolImpl` is the oracle for the tool methods'
behaviour. -/
def _execute_function (toolImpl : String → List (String × ArgVal) → ExecResult)
    (function_name : String) (arguments : List (String × ArgVal)) : ExecResult :=
  if awsToolsMethods.contains function_name then toolImpl function_name arguments
  else .raised ("Unknown function: " ++ function_name)

/-- Credential pre-check and injection of `process_request` (lines
267-276): `none` when the operation needs credentials and the request
supplied none (the loop then returns the needs-credentials reply),
otherwise the arguments with the credentials added when required. -/
def injectArgs (creds : Option AWSCredentials) (name : String)
    (args : List (String × ArgVal)) : Option (List (String × ArgVal)) :=
  if _requires_aws_credentials name then
    match creds with
    | none => none
    | some c => some (args ++ [("credentials", ArgVal.creds c)])
  else some args

/-- List-of-characters prefix test (used to model Python's `in` on
strings). -/
def charsLead : List Char → List Char → Bool
  | [], _ => true
  | _ :: _, [] => false
  | a :: as, b :: bs => a = b && charsLead as bs

/-- Substring occurrence on character lists. -/
def charsHaveSub (needle : List Char) : List Char → Bool
  | [] => needle.isEmpty
  | c :: cs => charsLead needle (c :: cs) || charsHaveSub needle cs

/-- Python `needle in hay` on strings. -/
def pyIn (needle hay : String) : Bool := charsHaveSub needle.data hay.data

/-- Python `str.lower()` (ASCII characters, which is all the source's
error texts use). -/
def pyLower (s : String) : String := String.mk (s.data.map Char.toLower)

/-- The fixed reply of `process_request` when a credential-requiring
tool is requested without credentials (lines 270-273). -/
def needsCredentialsReply : ChatResponse :=
  { response := some "I\x27ll need your AWS credentials to perform this operation. Don\x27t worry - your credentials will be used securely and only for this specific task. Please provide them in the prompt.",
    actions_taken := [], aws_resources_affected := [], validation_results := none,
    requiresCredentials := some true, error := none }

/-- Outcome of handling one tool call inside the dispatch loop: an
exception propagating out of the loop, an early `return` with a
`ChatResponse`, or the updated accumulators for the next iteration. -/
inductive StepOut where
  | raised (e : String)
  | early (r : ChatResponse)
  | next (msgs : List OMessage) (actions : List String) (affected : List Affected)

/-- One iteration of the tool-call loop of
`OrchestratorAgent.process_request` (lines 261-329).  The `Bool`
records whether `_execute_function` was reached (i.e. whether the tool
was dispatched).  Mirrors the source order: parse arguments, credential
pre-check and injection, dispatch, then handle the result — early
return on `requires_credentials`, early return with the accumulated
`actions_taken` on failure, and on success record the action, record
the affected resource (parameters minus credentials), and append the
assistant tool-call record plus the serialized result to the
conversation. -/
def dispatchToolCall (creds : Option AWSCredentials)
    (exec : String → List (String × ArgVal) → ExecResult)
    (tc : ToolCall) (msgs : List OMessage) (actions : List String)
    (affected : List Affected) : StepOut × Bool :=
  match tc.arguments with
  | .error e => (.raised e, false)
  | .ok args =>
    match injectArgs creds tc.name args with
    | none => (.early needsCredentialsReply, false)
    | some fullArgs =>
      match exec tc.name fullArgs with
      | .raised m =>
        if pyIn "credentials" (pyLower m) || pyIn "access" (pyLower m) then
          (.early { response := some ("I need valid AWS credentials to perform this operation: " ++ m),
                    actions_taken := [], aws_resources_affected := [],
                    validation_results := none, requiresCredentials := some true,
                    error := none }, true)
        else (.raised m, true)
      | .awsResp r =>
        if r.requires_credentials then
          (.early { response := r.message, actions_taken := [],
                    aws_resources_affected := [], validation_results := none,
                    requiresCredentials := some true, error := none }, true)
        else if !r.success then
          (.early { response := r.message, actions_taken := actions,
                    aws_resources_affected := [], validation_results := none,
                    requiresCredentials := none, error := none }, true)
        else
          (.next (msgs ++ [OMessage.assistantToolCall tc.id tc.name tc,
                           OMessage.tool (Json.dumps r.data) tc.id])
                 (actions ++ ["Successfully executed " ++ tc.name])
                 (affected ++ (if _requires_aws_credentials tc.name then
                     [⟨tc.name, fullArgs.filter (fun p => p.1 != "credentials")⟩]
                   else [])), true)
      | .other j =>
        (.next (msgs ++ [OMessage.assistantToolCall tc.id tc.name tc,
                         OMessage.tool (Json.dumps j) tc.id])
               actions
               (affected ++ (if _requires_aws_credentials tc.name then
                   [⟨tc.name, fullArgs.filter (fun p => p.1 != "credentials")⟩]
                 else [])), true)

/-- Result of the whole tool-call loop: either a request-level exception
or an early `ChatResponse`, or the final conversation plus accumulators
for the follow-up model call; `dispatched` lists, in order, the names of
the tool calls actually passed to `_execute_function`. -/
structure LoopOut where
  result : Except String (ChatResponse ⊕ (List OMessage × List String × List Affected))
  dispatched : List String

/-- The `for tool_call in message.tool_calls` loop of `process_request`,
threading the conversation list and the two accumulators. -/
def runToolCalls (creds : Option AWSCredentials)
    (exec : String → List (String × ArgVal) → ExecResult) :
    List ToolCall → List OMessage → List String → List Affected → LoopOut
  | [], msgs, actions, affected => ⟨.ok (.inr (msgs, actions, affected)), []⟩
  | tc :: rest, msgs, actions, affected =>
    match dispatchToolCall creds exec tc msgs actions affected with
    | (.raised e, b) => ⟨.error e, if b then [tc.name] else []⟩
    | (.early r, b) => ⟨.ok (.inl r), if b then [tc.name] else []⟩
    | (.next m2 a2 f2, b) =>
      ⟨(runToolCalls creds exec rest m2 a2 f2).result,
        (if b then [tc.name] else []) ++ (runToolCalls creds exec rest m2 a2 f2).dispatched⟩

/-- Conversion of the request messages into the OpenAI shape (line 227). -/
def openaiMessagesOf (messages : List Message) : List OMessage :=
  messages.map (fun m => OMessage.plain m.role.toStr m.content)

/-- Overall outcome of `process_request`: the returned `ChatResponse` or
the request-level exception text; `dispatched` as in `LoopOut`;
`finalModelInput` is the conversation handed to the second OpenAI
completion, `none` when that call never happened. -/
structure RequestRun where
  result : Except String ChatResponse
  dispatched : List String
  finalModelInput : Option (List OMessage)

/-- Wrap-up of `process_request` after the loop: exceptions are wrapped
by the outer handler (line 354), an early `ChatResponse` is returned
as-is, and a completed loop triggers the second OpenAI completion whose
text becomes the response (lines 331-350). -/
def finishRun (o : LoopOut) (finalModel : List OMessage → Except String String) : RequestRun :=
  match o.result with
  | .error e => ⟨.error ("Error in process_request: " ++ e), o.dispatched, none⟩
  | .ok (.inl r) => ⟨.ok r, o.dispatched, none⟩
  | .ok (.inr (m, a, f)) =>
    match finalModel m with
    | .error e => ⟨.error ("Error in process_request: " ++ e), o.dispatched, some m⟩
    | .ok content =>
      ⟨.ok { response := some content, actions_taken := a, aws_resources_affected := f,
             validation_results := none, requiresCredentials := some false,
             error := none }, o.dispatched, some m⟩

/-- `OrchestratorAgent.process_request` (lines 223-354).  The first
OpenAI completion is the oracle `modelMsg`; `toolImpl` is the behaviour
of the `AWSTools` methods; `finalModel` is the second completion.  With
no tool calls the model text is the response; otherwise the dispatch
loop runs and `finishRun` applies. -/
def process_request (messages : List Message)
    (aws_credentials : Option AWSCredentials)
    (modelMsg : ModelMessage)
    (toolImpl : String → List (String × ArgVal) → ExecResult)
    (finalModel : List OMessage → Except String String) : RequestRun :=
  if modelMsg.tool_calls.isEmpty then
    ⟨.ok { response := modelMsg.content, actions_taken := [], aws_resources_affected := [],
           validation_results := none, requiresCredentials := some false,
           error := none }, [], none⟩
  else
    finishRun
      (runToolCalls aws_credentials (_execute_function toolImpl) modelMsg.tool_calls
        (openaiMessagesOf messages) [] [])
      finalModel

/-- `str(e)` of the `AttributeError` raised by `self.session.client('sts')`
when `self.session` is `None`. -/
def noneClientAttrError : String := "\x27NoneType\x27 object has no attribute \x27client\x27"

/-- The fixed low-confidence verdict `BedrockAgent.validate_aws_operation`
returns when the credential check fails (bedrock_agent.py lines 60-75);
`e` is the `str(e)` of the caught exception. -/
def invalidCredsVerdict (e : String) : Json :=
  Json.obj [("is_valid", Json.bool false),
    ("security_concerns", Json.arr [Json.str "Unable to validate AWS credentials"]),
    ("best_practice_suggestions", Json.arr
      [Json.str "Ensure the provided credentials are valid",
       Json.str "Ensure the credentials have sufficient permissions"]),
    ("parameter_validation", Json.obj
      [("valid_parameters", Json.arr []),
       ("invalid_parameters", Json.arr [Json.str "credentials"]),
       ("missing_parameters", Json.arr [])]),
    ("recommendation", Json.str ("Please provide valid AWS credentials. Error: " ++ e))]

/-- The validation prompt template of `validate_aws_operation` (lines
77-101), with the operation JSON spliced in; the leading indentation of
the Python triple-quoted string is kept approximately and `indent=2` of
`json.dumps` is not modelled (no claim depends on the exact prompt
text). -/
def validatePrompt (operation : Json) : String :=
  "\n            Please analyze this AWS operation for potential security issues, best practices, and validate its parameters:\n\n            Operation: " ++
  Json.dumps operation ++
  "\n\n            Provide your analysis in the following JSON format:\n            \x7b\n                \"is_valid\": boolean,\n                \"security_concerns\": [list of strings],\n                \"best_practice_suggestions\": [list of strings],\n                \"parameter_validation\": \x7b\n                    \"valid_parameters\": [list of strings],\n                    \"invalid_parameters\": [list of strings],\n                    \"missing_parameters\": [list of strings]\n                \x7d,\n                \"recommendation\": \"string\"\n            \x7d\n            \n            Consider these security aspects:\n            1. Principle of least privilege\n            2. Resource naming conventions\n            3. Access control settings\n            4. Data security implications\n            5. Cost implications\n            "

/-- Does the parsed validation reply pass the shape check of lines
106-107 (`isinstance(validation_result, dict)` and `'is_valid' in
validation_result`)? -/
def isValidVerdictShape : Json → Bool
  | Json.obj fields => fields.any (fun p => p.1 == "is_valid")
  | _ => false

/-- Model-consulting tail of `validate_aws_operation` (lines 77-111):
build the prompt, invoke Bedrock (`bedrock` is the `_invoke_bedrock`
oracle: completion text or raised `str(e)`), parse the reply
(`jsonLoads` is the `json.loads` oracle), and check its shape; parse
and shape failures are re-raised. -/
def validateViaModel (operation : Json)
    (bedrock : String → Except String String)
    (jsonLoads : String → Except String Json) : Except String Json :=
  match bedrock (validatePrompt operation) with
  | .error e => .error e
  | .ok response =>
    match jsonLoads response with
    | .error e => .error e
    | .ok validation_result =>
      if isValidVerdictShape validation_result then .ok validation_result
      else .error "Invalid validation response format"

/-- Run record of `validate_aws_operation`: its result, whether the
`get_caller_identity` network call was issued, and whether the
secondary model (`_invoke_bedrock`) was reached. -/
structure ValidateRun where
  result : Except String Json
  stsApiCalled : Bool
  modelCalled : Bool

/-- `BedrockAgent.validate_aws_operation` (bedrock_agent.py lines
43-115).  `session` is `self.session` at entry (`None` on a freshly
constructed agent; the constructor sets `self.session = None` and only
`_invoke_bedrock` ever re-initializes it).  With credentials supplied,
the source runs `sts = self.session.client('sts')`: when the session is
`None` this raises `AttributeError` before any API call, and the
`except` at line 59 turns it into the fixed invalid-credentials
verdict; when a session exists, `get_caller_identity` runs on the
session's own credentials (`sts` oracle), not on the supplied ones. -/
def validate_aws_operation (session : Option AWSCredentials)
    (operation : Json) (credentials : Option AWSCredentials)
    (sts : AWSCredentials → Except String String)
    (bedrock : String → Except String String)
    (jsonLoads : String → Except String Json) : ValidateRun :=
  match credentials with
  | some _ =>
    match session with
    | none => ⟨.ok (invalidCredsVerdict noneClientAttrError), false, false⟩
    | some s =>
      match sts s with
      | .error e => ⟨.ok (invalidCredsVerdict e), true, false⟩
      | .ok _ => ⟨validateViaModel operation bedrock jsonLoads, true, true⟩
  | none => ⟨validateViaModel operation bedrock jsonLoads, false, true⟩

/-- The policy-suggestion prompt template of `suggest_iam_policy`
(lines 124-137), with the free-text description spliced in. -/
def suggestPolicyPrompt (description : String) : String :=
  "\n            Please suggest an AWS IAM policy based on this description of required permissions:\n\n            Description: " ++
  description ++
  "\n\n            Provide your response as a valid IAM policy JSON document with minimal required permissions following the principle of least privilege.\n            Include comments explaining each permission.\n\n            Consider:\n            1. Use specific resource ARNs where possible\n            2. Avoid overly permissive actions (e.g., \x27*\x27)\n            3. Include necessary conditions\n            4. Follow AWS security best practices\n            "

/-- `BedrockAgent.suggest_iam_policy` (bedrock_agent.py lines 117-148):
invoke Bedrock with the rendered prompt; parse the reply; on
`JSONDecodeError` return the `{error, response}` dict instead of
raising; exceptions from the invocation itself are re-raised
unchanged. -/
def suggest_iam_policy (description : String)
    (bedrock : String → Except String String)
    (jsonLoads : String → Except String Json) : Except String Json :=
  match bedrock (suggestPolicyPrompt description) with
  | .error e => .error e
  | .ok response =>
    match jsonLoads response with
    | .ok policy => .ok policy
    | .error _ =>
      .ok (Json.obj [("error", Json.str "Could not parse policy"),
                     ("response", Json.str response)])

/-- Concrete credentials used by the witness scenarios. -/
def credW : AWSCredentials := ⟨"AKIAEXAMPLE", "SECRETEXAMPLE", "us-east-1"⟩

/-- Witness tool behaviour: `get_s3_bucket_sizes` succeeds, any other
tool fails without needing credentials. -/
def toolImplW : String → List (String × ArgVal) → ExecResult := fun name _ =>
  if name = "get_s3_bucket_sizes" then
    .awsResp { success := true, data := Json.null, message := some "ok",
               requires_credentials := false }
  else
    .awsResp { success := false, data := Json.null, message := some "boom",
               requires_credentials := false }

/-- Witness tool behaviour: `get_s3_bucket_sizes` succeeds, any other
tool reports invalid credentials. -/
def toolImplW2 : String → List (String × ArgVal) → ExecResult := fun name _ =>
  if name = "get_s3_bucket_sizes" then
    .awsResp { success := true, data := Json.null, message := some "ok",
               requires_credentials := false }
  else
    .awsResp { success := false, data := Json.null,
               message := some "Invalid AWS credentials provided. Please check your Access Key ID and Secret Access Key.",
               requires_credentials := true }

/-- Witness executor returning a successful numeric payload for every
call. -/
def execW : String → List (String × ArgVal) → ExecResult := fun _ _ =>
  .awsResp { success := true, data := Json.num 7, message := some "ok",
             requires_credentials := false }

/-- The successful response `execW` returns. -/
def r7W : AWSResponse :=
  { success := true, data := Json.num 7, message := some "ok",
    requires_credentials := false }

/-- Witness tool calls. -/
def tcW1 : ToolCall := ⟨"1", "get_s3_bucket_sizes", .ok []⟩

/-- Second witness tool call. -/
def tcW2 : ToolCall := ⟨"2", "list_ec2_instances", .ok []⟩

/-- Third witness tool call. -/
def tcW3 : ToolCall := ⟨"3", "describe_iam_role", .ok []⟩

/-- Witness tool call for a non-credential-requiring tool name. -/
def tcW4 : ToolCall := ⟨"9", "math_tool", .ok []⟩

/-- Unfolding of the tool-call loop on a non-empty list. -/
theorem runToolCalls_cons (creds : Option AWSCredentials)
    (exec : String → List (String × ArgVal) → ExecResult)
    (tc : ToolCall) (rest : List ToolCall) (msgs : List OMessage)
    (actions : List String) (affected : List Affected) :
    runToolCalls creds exec (tc :: rest) msgs actions affected =
      match dispatchToolCall creds exec tc msgs actions affected with
      | (.raised e, b) => ⟨.error e, if b then [tc.name] else []⟩
      | (.early r, b) => ⟨.ok (.inl r), if b then [tc.name] else []⟩
      | (.next m2 a2 f2, b) =>
        ⟨(runToolCalls creds exec rest m2 a2 f2).result,
          (if b then [tc.name] else []) ++ (runToolCalls creds exec rest m2 a2 f2).dispatched⟩ := rfl

/-- The loop propagates an exception raised while handling the first
call. -/
theorem runToolCalls_cons_raised {creds : Option AWSCredentials}
    {exec : String → List (String × ArgVal) → ExecResult}
    {tc : ToolCall} {msgs : List OMessage} {actions : List String}
    {affected : List Affected} {e : String} {b : Bool} (rest : List ToolCall)
    (hd : dispatchToolCall creds exec tc msgs actions affected = (.raised e, b)) :
    runToolCalls creds exec (tc :: rest) msgs actions affected =
      ⟨.error e, if b then [tc.name] else []⟩ := by
  rw [runToolCalls_cons, hd]

/-- The loop returns immediately when handling the first call produces
an early `ChatResponse`. -/
theorem runToolCalls_cons_early {creds : Option AWSCredentials}
    {exec : String → List (String × ArgVal) → ExecResult}
    {tc : ToolCall} {msgs : List OMessage} {actions : List String}
    {affected : List Affected} {r : ChatResponse} {b : Bool} (rest : List ToolCall)
    (hd : dispatchToolCall creds exec tc msgs actions affected = (.early r, b)) :
    runToolCalls creds exec (tc :: rest) msgs actions affected =
      ⟨.ok (.inl r), if b then [tc.name] else []⟩ := by
  rw [runToolCalls_cons, hd]

/-- The loop continues with updated accumulators after a successful
first call. -/
theorem runToolCalls_cons_next {creds : Option AWSCredentials}
    {exec : String → List (String × ArgVal) → ExecResult}
    {tc : ToolCall} {msgs m2 : List OMessage} {actions a2 : List String}
    {affected f2 : List Affected} {b : Bool} (rest : List ToolCall)
    (hd : dispatchToolCall creds exec tc msgs actions affected = (.next m2 a2 f2, b)) :
    runToolCalls creds exec (tc :: rest) msgs actions affected =
      ⟨(runToolCalls creds exec rest m2 a2 f2).result,
        (if b then [tc.name] else []) ++ (runToolCalls creds exec rest m2 a2 f2).dispatched⟩ := by
  rw [runToolCalls_cons, hd]

/-- Composition of the loop: a prefix that runs to completion followed
by further calls behaves like the loop on the remaining calls started
from the reached state, with the dispatch traces concatenated. -/
theorem runToolCalls_append {creds : Option AWSCredentials}
    {exec : String → List (String × ArgVal) → ExecResult}
    (pre rest : List ToolCall)
    {msgs : List OMessage} {actions : List String} {affected : List Affected}
    {m : List OMessage} {a : List String} {f : List Affected} {d : List String}
    (h : runToolCalls creds exec pre msgs actions affected = ⟨.ok (.inr (m, a, f)), d⟩) :
    runToolCalls creds exec (pre ++ rest) msgs actions affected =
      ⟨(runToolCalls creds exec rest m a f).result,
        d ++ (runToolCalls creds exec rest m a f).dispatched⟩ := by
  induction pre generalizing msgs actions affected d with
  | nil =>
    simp only [runToolCalls, LoopOut.mk.injEq, Except.ok.injEq, Sum.inr.injEq,
      Prod.mk.injEq] at h
    obtain ⟨⟨h1, h2, h3⟩, h4⟩ := h
    subst h1; subst h2; subst h3; subst h4
    simp
  | cons tc tl ih =>
    rcases hd : dispatchToolCall creds exec tc msgs actions affected with ⟨s, b⟩
    cases s with
    | raised e =>
      rw [runToolCalls_cons_raised tl hd] at h
      simp at h
    | early r =>
      rw [runToolCalls_cons_early tl hd] at h
      simp at h
    | next m2 a2 f2 =>
      rw [runToolCalls_cons_next tl hd] at h
      simp only [LoopOut.mk.injEq] at h
      obtain ⟨h1, h2⟩ := h
      have h' : runToolCalls creds exec tl m2 a2 f2 =
          ⟨.ok (.inr (m, a, f)), (runToolCalls creds exec tl m2 a2 f2).dispatched⟩ := by
        rw [← h1]
      have key := ih h'
      rw [List.cons_append, runToolCalls_cons_next (tl ++ rest) hd, key]
      rw [← h2]
      simp [List.append_assoc]

/-- With a non-empty tool-call list, `process_request` runs the loop and
finishes it. -/
theorem process_request_toolpath (messages : List Message)
    (creds : Option AWSCredentials) (modelMsg : ModelMessage)
    (toolImpl : String → List (String × ArgVal) → ExecResult)
    (finalModel : List OMessage → Except String String)
    (hne : modelMsg.tool_calls.isEmpty = false) :
    process_request messages creds modelMsg toolImpl finalModel =
      finishRun (runToolCalls creds (_execute_function toolImpl) modelMsg.tool_calls
        (openaiMessagesOf messages) [] []) finalModel := by
  unfold process_request
  rw [if_neg (by simp [hne])]

/-- C1: each of the four AWS tool operations, called without
credentials, returns `success = false`, `requires_credentials = true`
and its operation-specific prompt to supply credentials, and issues no
AWS SDK call at all (the SDK oracle is never consulted). -/
theorem tools_without_credentials_refuse :
    (∀ sdk, (get_s3_bucket_sizes none sdk).response.success = false ∧
      (get_s3_bucket_sizes none sdk).response.requires_credentials = true ∧
      (get_s3_bucket_sizes none sdk).response.message =
        some "To list your S3 buckets and their sizes, I\x27ll need your AWS credentials. Please provide them securely." ∧
      (get_s3_bucket_sizes none sdk).networkCalled = false) ∧
    (∀ sdk, (list_ec2_instances none sdk).response.success = false ∧
      (list_ec2_instances none sdk).response.requires_credentials = true ∧
      (list_ec2_instances none sdk).response.message =
        some "To list your EC2 instances, I\x27ll need your AWS credentials. Please provide them securely." ∧
      (list_ec2_instances none sdk).networkCalled = false) ∧
    (∀ role_name sdk, (describe_iam_role role_name none sdk).response.success = false ∧
      (describe_iam_role role_name none sdk).response.requires_credentials = true ∧
      (describe_iam_role role_name none sdk).response.message =
        some ("To describe the IAM role \x27" ++ role_name ++
          "\x27, I\x27ll need your AWS credentials. Please provide them securely.") ∧
      (describe_iam_role role_name none sdk).networkCalled = false) ∧
    (∀ bucket_name sdk, (get_s3_bucket_file_count bucket_name none sdk).response.success = false ∧
      (get_s3_bucket_file_count bucket_name none sdk).response.requires_credentials = true ∧
      (get_s3_bucket_file_count bucket_name none sdk).response.message =
        some "To count files in your S3 buckets, I\x27ll need your AWS credentials. Please provide them securely." ∧
      (get_s3_bucket_file_count bucket_name none sdk).networkCalled = false) :=
  ⟨fun _ => ⟨rfl, rfl, rfl, rfl⟩, fun _ => ⟨rfl, rfl, rfl, rfl⟩,
   fun _ _ => ⟨rfl, rfl, rfl, rfl⟩, fun _ _ => ⟨rfl, rfl, rfl, rfl⟩⟩

/-- C9: invariant of the uniform result envelope — no `AWSResponse`
produced by any of the four tool operations ever has
`requires_credentials` and `success` set at the same time, for any
credentials and any SDK outcome. -/
theorem aws_response_invariant :
    (∀ credentials sdk,
      ((get_s3_bucket_sizes credentials sdk).response.requires_credentials &&
        (get_s3_bucket_sizes credentials sdk).response.success) = false) ∧
    (∀ credentials sdk,
      ((list_ec2_instances credentials sdk).response.requires_credentials &&
        (list_ec2_instances credentials sdk).response.success) = false) ∧
    (∀ role_name credentials sdk,
      ((describe_iam_role role_name credentials sdk).response.requires_credentials &&
        (describe_iam_role role_name credentials sdk).response.success) = false) ∧
    (∀ bucket_name credentials sdk,
      ((get_s3_bucket_file_count bucket_name credentials sdk).response.requires_credentials &&
        (get_s3_bucket_file_count bucket_name credentials sdk).response.success) = false) := by
  refine ⟨?_, ?_, ?_, ?_⟩
  · intro credentials sdk
    cases credentials <;> cases sdk <;>
      simp only [get_s3_bucket_sizes] <;> first | rfl | (split_ifs <;> rfl)
  · intro credentials sdk
    cases credentials <;> cases sdk <;>
      simp only [list_ec2_instances] <;> first | rfl | (split_ifs <;> rfl)
  · intro role_name credentials sdk
    cases credentials <;> cases sdk <;>
      simp only [describe_iam_role] <;> first | rfl | (split_ifs <;> rfl)
  · intro bucket_name credentials sdk
    cases credentials <;> cases sdk <;>
      simp only [get_s3_bucket_file_count, s3fcClientErrorResponse] <;> first | rfl | (split_ifs <;> rfl)

/-- C3: the per-operation `ClientError` mapping — the codes
`InvalidAccessKeyId`, `SignatureDoesNotMatch` and `AccessDenied` yield
`success = false` with a fixed human-readable message and
`requires_credentials = true` in every tool operation; `NoSuchBucket`
yields `success = false` with `requires_credentials = false`; any
unrecognized code yields `success = false`,
`requires_credentials = false` and the generic wrapped `AWS error`
text. -/
theorem client_error_code_mapping (c : AWSCredentials)
    (text code role_name failing : String) (bn : Option String)
    (h1 : code ≠ "InvalidAccessKeyId") (h2 : code ≠ "SignatureDoesNotMatch")
    (h3 : code ≠ "AccessDenied") (h4 : code ≠ "NoSuchBucket") :
    ((get_s3_bucket_sizes (some c) (.clientError "InvalidAccessKeyId" text)).response =
      { success := false, data := Json.null,
        message := some "The AWS Access Key ID you provided is invalid. Please check your credentials.",
        requires_credentials := true } ∧
     (get_s3_bucket_sizes (some c) (.clientError "SignatureDoesNotMatch" text)).response =
      { success := false, data := Json.null,
        message := some "The AWS Secret Access Key you provided is invalid. Please check your credentials.",
        requires_credentials := true } ∧
     (get_s3_bucket_sizes (some c) (.clientError "AccessDenied" text)).response =
      { success := false, data := Json.null,
        message := some "Your AWS credentials don\x27t have permission to list S3 buckets. Please check your IAM permissions.",
        requires_credentials := true } ∧
     (get_s3_bucket_sizes (some c) (.clientError code text)).response =
      { success := false, data := Json.null,
        message := some ("AWS error: " ++ text), requires_credentials := false }) ∧
    ((list_ec2_instances (some c) (.clientError "InvalidAccessKeyId" text)).response =
      { success := false, data := Json.null,
        message := some "Invalid AWS credentials provided. Please check your Access Key ID and Secret Access Key.",
        requires_credentials := true } ∧
     (list_ec2_instances (some c) (.clientError "SignatureDoesNotMatch" text)).response =
      { success := false, data := Json.null,
        message := some "Invalid AWS credentials provided. Please check your Access Key ID and Secret Access Key.",
        requires_credentials := true } ∧
     (list_ec2_instances (some c) (.clientError "AccessDenied" text)).response =
      { success := false, data := Json.null,
        message := some "Your AWS credentials don\x27t have permission to list EC2 instances. Please check your IAM permissions.",
        requires_credentials := true } ∧
     (list_ec2_instances (some c) (.clientError code text)).response =
      { success := false, data := Json.null,
        message := some ("AWS error: " ++ text), requires_credentials := false }) ∧
    ((describe_iam_role role_name (some c) (.clientError "InvalidAccessKeyId" text)).response =
      { success := false, data := Json.null,
        message := some "Invalid AWS credentials provided. Please check your Access Key ID and Secret Access Key.",
        requires_credentials := true } ∧
     (describe_iam_role role_name (some c) (.clientError "SignatureDoesNotMatch" text)).response =
      { success := false, data := Json.null,
        message := some "Invalid AWS credentials provided. Please check your Access Key ID and Secret Access Key.",
        requires_credentials := true } ∧
     (describe_iam_role role_name (some c) (.clientError "AccessDenied" text)).response =
      { success := false, data := Json.null,
        message := some "Your AWS credentials don\x27t have permission to access IAM roles. Please check your IAM permissions.",
        requires_credentials := true } ∧
     (describe_iam_role role_name (some c) (.clientError code text)).response =
      { success := false, data := Json.null,
        message := some ("AWS error: " ++ text), requires_credentials := false }) ∧
    ((get_s3_bucket_file_count bn (some c) (.listError "NoSuchBucket" text)).response =
      { success := false, data := Json.null,
        message := some ("The specified bucket \x27" ++ pyOptStr bn ++ "\x27 does not exist"),
        requires_credentials := false } ∧
     (get_s3_bucket_file_count bn (some c) (.listError "InvalidAccessKeyId" text)).response =
      { success := false, data := Json.null,
        message := some "Invalid AWS credentials provided. Please check your Access Key ID and Secret Access Key.",
        requires_credentials := true } ∧
     (get_s3_bucket_file_count bn (some c) (.listError "SignatureDoesNotMatch" text)).response =
      { success := false, data := Json.null,
        message := some "Invalid AWS credentials provided. Please check your Access Key ID and Secret Access Key.",
        requires_credentials := true } ∧
     (get_s3_bucket_file_count bn (some c) (.listError "AccessDenied" text)).response =
      { success := false, data := Json.null,
        message := some "Your AWS credentials don\x27t have permission to list objects in S3 buckets. Please check your IAM permissions.",
        requires_credentials := true } ∧
     (get_s3_bucket_file_count bn (some c) (.listError code text)).response =
      { success := false, data := Json.null,
        message := some ("AWS error: " ++ text), requires_credentials := false }) ∧
    ((get_s3_bucket_file_count bn (some c) (.pageError failing "NoSuchBucket" text)).response =
      { success := false, data := Json.null,
        message := some ("The specified bucket \x27" ++ failing ++ "\x27 does not exist"),
        requires_credentials := false } ∧
     (get_s3_bucket_file_count bn (some c) (.pageError failing "AccessDenied" text)).response =
      { success := false, data := Json.null,
        message := some "Your AWS credentials don\x27t have permission to list objects in S3 buckets. Please check your IAM permissions.",
        requires_credentials := true } ∧
     (get_s3_bucket_file_count bn (some c) (.pageError failing code text)).response =
      { success := false, data := Json.null,
        message := some ("AWS error: " ++ text), requires_credentials := false }) := by
  refine ⟨⟨?_, ?_, ?_, ?_⟩, ⟨?_, ?_, ?_, ?_⟩, ⟨?_, ?_, ?_, ?_⟩,
    ⟨?_, ?_, ?_, ?_, ?_⟩, ⟨?_, ?_, ?_⟩⟩ <;>
    first
      | rfl
      | simp [get_s3_bucket_sizes, list_ec2_instances, describe_iam_role,
          get_s3_bucket_file_count, s3fcClientErrorResponse, h1, h2, h3, h4]

/-- C3 witness: the mapping evaluated at the concrete unrecognized code
"Throttling". -/
theorem client_error_code_mapping_witness :
    (get_s3_bucket_sizes (some credW) (.clientError "Throttling" "Rate exceeded")).response =
      { success := false, data := Json.null,
        message := some "AWS error: Rate exceeded", requires_credentials := false } ∧
    (get_s3_bucket_file_count (some "b1") (some credW)
        (.pageError "bfail" "Throttling" "Rate exceeded")).response =
      { success := false, data := Json.null,
        message := some "AWS error: Rate exceeded", requires_credentials := false } := by
  have h := client_error_code_mapping credW "Rate exceeded" "Throttling" "myrole" "bfail"
    (some "b1") (by decide) (by decide) (by decide) (by decide)
  exact ⟨h.1.2.2.2, h.2.2.2.2.2.2⟩

/-- C4: the resource-creation operations referenced by the
orchestrator's tool schema (`create_s3_bucket`, `create_lambda_function`,
`create_iam_role`, `assign_policy_to_role`) are advertised to the model
and flagged as credential-requiring, yet `AWSTools` has no such
attributes, so `_execute_function` raises `Unknown function` for each of
them, and a chat turn dispatching one of them fails with a request-level
error instead of returning the uniform result envelope. -/
theorem creation_ops_unknown_function :
    (∀ toolImpl args, _execute_function toolImpl "create_s3_bucket" args =
      .raised "Unknown function: create_s3_bucket") ∧
    (∀ toolImpl args, _execute_function toolImpl "create_lambda_function" args =
      .raised "Unknown function: create_lambda_function") ∧
    (∀ toolImpl args, _execute_function toolImpl "create_iam_role" args =
      .raised "Unknown function: create_iam_role") ∧
    (∀ toolImpl args, _execute_function toolImpl "assign_policy_to_role" args =
      .raised "Unknown function: assign_policy_to_role") ∧
    (orchestratorToolNames.contains "create_s3_bucket" = true ∧
     orchestratorToolNames.contains "create_lambda_function" = true ∧
     orchestratorToolNames.contains "create_iam_role" = true ∧
     orchestratorToolNames.contains "assign_policy_to_role" = true) ∧
    (aws_operations.contains "create_s3_bucket" = true ∧
     aws_operations.contains "create_lambda_function" = true ∧
     aws_operations.contains "create_iam_role" = true ∧
     aws_operations.contains "assign_policy_to_role" = true) ∧
    (awsToolsMethods.contains "create_s3_bucket" = false ∧
     awsToolsMethods.contains "create_lambda_function" = false ∧
     awsToolsMethods.contains "create_iam_role" = false ∧
     awsToolsMethods.contains "assign_policy_to_role" = false) ∧
    (∀ messages c content toolImpl finalModel tcid args rest,
      process_request messages (some c)
          ⟨content, ⟨tcid, "create_s3_bucket", .ok args⟩ :: rest⟩ toolImpl finalModel =
        ⟨.error "Error in process_request: Unknown function: create_s3_bucket",
          ["create_s3_bucket"], none⟩) :=
  ⟨fun _ _ => rfl, fun _ _ => rfl, fun _ _ => rfl, fun _ _ => rfl,
   ⟨rfl, rfl, rfl, rfl⟩, ⟨rfl, rfl, rfl, rfl⟩, ⟨rfl, rfl, rfl, rfl⟩,
   fun _ _ _ _ _ _ _ _ => rfl⟩

/-- C7: on a freshly constructed `BedrockAgent` (`self.session` is
`None`), `validate_aws_operation` with credentials supplied returns the
fixed invalid-credentials verdict — `is_valid = false` and
`invalid_parameters = ["credentials"]` — without issuing the
`get_caller_identity` identity-check API call and without invoking the
secondary model, whatever the supplied credentials and however the
oracles would behave. -/
theorem validate_fresh_session_invalid_verdict :
    ∀ (operation : Json) (c : AWSCredentials)
      (sts : AWSCredentials → Except String String)
      (bedrock : String → Except String String)
      (jsonLoads : String → Except String Json),
      validate_aws_operation none operation (some c) sts bedrock jsonLoads =
        { result := .ok (invalidCredsVerdict noneClientAttrError),
          stsApiCalled := false, modelCalled := false } :=
  fun _ _ _ _ _ => rfl

/-- C8: whenever the secondary model's reply fails to parse as JSON,
`suggest_iam_policy` returns the `{error, response}` object carrying the
raw reply instead of propagating the parse exception. -/
theorem suggest_policy_parse_failure_envelope
    (description : String) (bedrock : String → Except String String)
    (jsonLoads : String → Except String Json) (reply e : String)
    (hb : bedrock (suggestPolicyPrompt description) = .ok reply)
    (hp : jsonLoads reply = .error e) :
    suggest_iam_policy description bedrock jsonLoads =
      .ok (Json.obj [("error", Json.str "Could not parse policy"),
                     ("response", Json.str reply)]) := by
  simp only [suggest_iam_policy, hb, hp]

/-- C8 witness: a concrete non-JSON reply produces the error envelope. -/
theorem suggest_policy_parse_failure_envelope_witness :
    suggest_iam_policy "read-only access to one bucket"
        (fun _ => .ok "Here is the policy you asked for")
        (fun _ => .error "Expecting value: line 1 column 1 (char 0)") =
      .ok (Json.obj [("error", Json.str "Could not parse policy"),
                     ("response", Json.str "Here is the policy you asked for")]) :=
  suggest_policy_parse_failure_envelope "read-only access to one bucket" _ _
    "Here is the policy you asked for" "Expecting value: line 1 column 1 (char 0)" rfl rfl

/-- C2: in the orchestrator's dispatch loop, after a prefix of
successful tool calls, a dispatched call whose `AWSResponse` signals
`requires_credentials` or failure makes `process_request` return
immediately: no tool call after it is ever dispatched (the dispatch
trace ends at the failing call), the second model completion never
happens (`finalModelInput = none`, so the failing result is not shown
to the model for re-planning), and on a non-credential failure the
response carries the `actions_taken` accumulated from the prior
successes. -/
theorem orchestrator_short_circuit_on_failure
    (messages : List Message) (creds : Option AWSCredentials)
    (modelMsg : ModelMessage)
    (toolImpl : String → List (String × ArgVal) → ExecResult)
    (finalModel : List OMessage → Except String String)
    (pre post : List ToolCall) (tcf : ToolCall)
    (m : List OMessage) (a : List String) (f : List Affected) (d : List String)
    (args fullArgs : List (String × ArgVal)) (r : AWSResponse)
    (hcalls : modelMsg.tool_calls = pre ++ tcf :: post)
    (hpre : runToolCalls creds (_execute_function toolImpl) pre
        (openaiMessagesOf messages) [] [] = ⟨.ok (.inr (m, a, f)), d⟩)
    (hargs : tcf.arguments = .ok args)
    (hinj : injectArgs creds tcf.name args = some fullArgs)
    (hexec : _execute_function toolImpl tcf.name fullArgs = .awsResp r)
    (hfail : r.requires_credentials = true ∨ r.success = false) :
    process_request messages creds modelMsg toolImpl finalModel =
      ⟨.ok (if r.requires_credentials then
          { response := r.message, actions_taken := [], aws_resources_affected := [],
            validation_results := none, requiresCredentials := some true, error := none }
        else
          { response := r.message, actions_taken := a, aws_resources_affected := [],
            validation_results := none, requiresCredentials := none, error := none }),
        d ++ [tcf.name], none⟩ := by
  have hne : modelMsg.tool_calls.isEmpty = false := by
    rw [hcalls]; cases pre <;> rfl
  have hstep : dispatchToolCall creds (_execute_function toolImpl) tcf m a f =
      (.early (if r.requires_credentials then
          { response := r.message, actions_taken := [], aws_resources_affected := [],
            validation_results := none, requiresCredentials := some true, error := none }
        else
          { response := r.message, actions_taken := a, aws_resources_affected := [],
            validation_results := none, requiresCredentials := none, error := none }), true) := by
    simp only [dispatchToolCall, hargs, hinj, hexec]
    by_cases hrc : r.requires_credentials = true
    · simp [hrc]
    · have hrc' : r.requires_credentials = false := by
        cases hb : r.requires_credentials
        · rfl
        · exact absurd hb hrc
      have hs : r.success = false := by
        rcases hfail with h | h
        · exact absurd h hrc
        · exact h
      simp [hrc', hs]
  rw [process_request_toolpath _ _ _ _ _ hne, hcalls,
    runToolCalls_append pre (tcf :: post) hpre,
    runToolCalls_cons_early post hstep]
  rfl

/-- C2 witness: with `get_s3_bucket_sizes` succeeding and
`list_ec2_instances` failing, a three-call batch stops after the second
call, keeps the one recorded action, and never reaches the third call
or the final model. -/
theorem orchestrator_short_circuit_on_failure_witness :
    process_request [] (some credW) ⟨none, [tcW1, tcW2, tcW3]⟩ toolImplW
        (fun _ => .ok "done") =
      ⟨.ok { response := some "boom",
             actions_taken := ["Successfully executed get_s3_bucket_sizes"],
             aws_resources_affected := [], validation_results := none,
             requiresCredentials := none, error := none },
        ["get_s3_bucket_sizes", "list_ec2_instances"], none⟩ :=
  orchestrator_short_circuit_on_failure [] (some credW) ⟨none, [tcW1, tcW2, tcW3]⟩
    toolImplW (fun _ => .ok "done") [tcW1] [tcW3] tcW2
    [OMessage.assistantToolCall "1" "get_s3_bucket_sizes" tcW1, OMessage.tool "null" "1"]
    ["Successfully executed get_s3_bucket_sizes"]
    [⟨"get_s3_bucket_sizes", []⟩]
    ["get_s3_bucket_sizes"]
    [] [("credentials", ArgVal.creds credW)]
    { success := false, data := Json.null, message := some "boom",
      requires_credentials := false }
    rfl rfl rfl rfl rfl (Or.inr rfl)

/-- C5 counterexample: a chat request with no credentials whose model
reply asks for the credential-requiring `get_s3_bucket_sizes` is
refused — `process_request` returns the fixed needs-credentials reply
with `requiresCredentials = some true`, dispatches nothing
(`dispatched = []`, so no AWS call is made with environment-default
credentials or any other), and never consults the final model. -/
theorem env_credentials_not_used_counterexample :
    process_request [⟨MessageRole.user, "list my buckets"⟩] none
        ⟨none, [⟨"call_1", "get_s3_bucket_sizes", .ok []⟩]⟩
        (fun _ _ => ExecResult.raised "AWS SDK reached")
        (fun _ => .ok "final reply") =
      ⟨.ok needsCredentialsReply, [], none⟩ ∧
    needsCredentialsReply.requiresCredentials = some true ∧
    needsCredentialsReply.actions_taken = [] :=
  ⟨rfl, rfl, rfl⟩

/-- C5 (amended): when a chat request supplies no credentials and the
model's reply requests a credential-requiring operation as its first
tool call, `process_request` refuses — it returns the fixed
needs-credentials reply with `requiresCredentials = some true`,
dispatches no tool (no AWS call is made, so the environment-default
credentials are never used), and never consults the final model. -/
theorem no_credentials_refusal
    (messages : List Message) (modelMsg : ModelMessage)
    (toolImpl : String → List (String × ArgVal) → ExecResult)
    (finalModel : List OMessage → Except String String)
    (tc : ToolCall) (rest : List ToolCall) (args : List (String × ArgVal))
    (hcalls : modelMsg.tool_calls = tc :: rest)
    (hargs : tc.arguments = .ok args)
    (hreq : _requires_aws_credentials tc.name = true) :
    process_request messages none modelMsg toolImpl finalModel =
      ⟨.ok needsCredentialsReply, [], none⟩ := by
  have hne : modelMsg.tool_calls.isEmpty = false := by rw [hcalls]; rfl
  have hstep : dispatchToolCall none (_execute_function toolImpl) tc
      (openaiMessagesOf messages) [] [] = (.early needsCredentialsReply, false) := by
    simp only [dispatchToolCall, hargs, injectArgs, hreq]
    simp
  rw [process_request_toolpath _ _ _ _ _ hne, hcalls,
    runToolCalls_cons_early rest hstep]
  rfl

/-- C5 witness: the refusal at a concrete credential-requiring call. -/
theorem no_credentials_refusal_witness :
    process_request [] none ⟨none, [⟨"7", "list_ec2_instances", .ok []⟩]⟩
        (fun _ _ => ExecResult.raised "never") (fun _ => .ok "y") =
      ⟨.ok needsCredentialsReply, [], none⟩ :=
  no_credentials_refusal [] ⟨none, [⟨"7", "list_ec2_instances", .ok []⟩]⟩
    (fun _ _ => ExecResult.raised "never") (fun _ => .ok "y")
    ⟨"7", "list_ec2_instances", .ok []⟩ [] [] rfl rfl rfl

/-- C6: round-trip of a successful tool call — the loop appends to the
conversation exactly the assistant tool-call record and a tool-role
message whose content is `Json.dumps` of that result's `data` payload
(nothing substituted, added or dropped), and continues from that
conversation; and when the whole batch completes, precisely the
accumulated conversation is what is handed to the model for the final
reply. -/
theorem tool_result_roundtrip :
    (∀ (creds : Option AWSCredentials)
       (exec : String → List (String × ArgVal) → ExecResult)
       (tc : ToolCall) (rest : List ToolCall) (msgs : List OMessage)
       (actions : List String) (affected : List Affected)
       (args fullArgs : List (String × ArgVal)) (r : AWSResponse),
      tc.arguments = .ok args →
      injectArgs creds tc.name args = some fullArgs →
      exec tc.name fullArgs = .awsResp r →
      r.requires_credentials = false →
      r.success = true →
      runToolCalls creds exec (tc :: rest) msgs actions affected =
        ⟨(runToolCalls creds exec rest
            (msgs ++ [OMessage.assistantToolCall tc.id tc.name tc,
                      OMessage.tool (Json.dumps r.data) tc.id])
            (actions ++ ["Successfully executed " ++ tc.name])
            (affected ++ (if _requires_aws_credentials tc.name then
                [⟨tc.name, fullArgs.filter (fun p => p.1 != "credentials")⟩] else []))).result,
          [tc.name] ++ (runToolCalls creds exec rest
            (msgs ++ [OMessage.assistantToolCall tc.id tc.name tc,
                      OMessage.tool (Json.dumps r.data) tc.id])
            (actions ++ ["Successfully executed " ++ tc.name])
            (affected ++ (if _requires_aws_credentials tc.name then
                [⟨tc.name, fullArgs.filter (fun p => p.1 != "credentials")⟩] else []))).dispatched⟩) ∧
    (∀ (messages : List Message) (creds : Option AWSCredentials)
       (modelMsg : ModelMessage)
       (toolImpl : String → List (String × ArgVal) → ExecResult)
       (finalModel : List OMessage → Except String String)
       (m : List OMessage) (a : List String) (f : List Affected) (d : List String),
      modelMsg.tool_calls.isEmpty = false →
      runToolCalls creds (_execute_function toolImpl) modelMsg.tool_calls
          (openaiMessagesOf messages) [] [] = ⟨.ok (.inr (m, a, f)), d⟩ →
      (process_request messages creds modelMsg toolImpl finalModel).finalModelInput = some m) := by
  constructor
  · intro creds exec tc rest msgs actions affected args fullArgs r hargs hinj hexec hrc hs
    have hstep : dispatchToolCall creds exec tc msgs actions affected =
        (.next (msgs ++ [OMessage.assistantToolCall tc.id tc.name tc,
                         OMessage.tool (Json.dumps r.data) tc.id])
               (actions ++ ["Successfully executed " ++ tc.name])
               (affected ++ (if _requires_aws_credentials tc.name then
                   [⟨tc.name, fullArgs.filter (fun p => p.1 != "credentials")⟩] else [])),
         true) := by
      simp only [dispatchToolCall, hargs, hinj, hexec, hrc, hs]
      simp
    rw [runToolCalls_cons_next rest hstep]
    rfl
  · intro messages creds modelMsg toolImpl finalModel m a f d hne hrun
    rw [process_request_toolpath _ _ _ _ _ hne, hrun]
    cases h2 : finalModel m <;> simp [finishRun, h2]

/-- C6 witness: a concrete successful call appends the tool message
"7" (the serialization of its `Json.num 7` payload), and a completed
one-call batch hands exactly the accumulated conversation to the final
model. -/
theorem tool_result_roundtrip_witness :
    runToolCalls none execW [tcW4] [] [] [] =
      ⟨.ok (.inr ([OMessage.assistantToolCall "9" "math_tool" tcW4, OMessage.tool "7" "9"],
        ["Successfully executed math_tool"], [])), ["math_tool"]⟩ ∧
    (process_request [] (some credW) ⟨none, [tcW1]⟩ toolImplW
        (fun _ => .ok "done")).finalModelInput =
      some [OMessage.assistantToolCall "1" "get_s3_bucket_sizes" tcW1, OMessage.tool "null" "1"] :=
  ⟨tool_result_roundtrip.1 none execW tcW4 [] [] [] [] [] [] r7W rfl rfl rfl rfl rfl,
   tool_result_roundtrip.2 [] (some credW) ⟨none, [tcW1]⟩ toolImplW (fun _ => .ok "done")
     [OMessage.assistantToolCall "1" "get_s3_bucket_sizes" tcW1, OMessage.tool "null" "1"]
     ["Successfully executed get_s3_bucket_sizes"]
     [⟨"get_s3_bucket_sizes", []⟩]
     ["get_s3_bucket_sizes"] rfl rfl⟩

/-- C10: a `requires_credentials` result arriving after earlier
successful tool calls makes `process_request` return the
needs-credentials response with EMPTY `actions_taken` and EMPTY
`aws_resources_affected` — the record of the already-executed
operations is dropped (unlike the plain-failure branch, which returns
the accumulated `actions_taken`). -/
theorem credential_failure_drops_actions
    (messages : List Message) (creds : Option AWSCredentials)
    (modelMsg : ModelMessage)
    (toolImpl : String → List (String × ArgVal) → ExecResult)
    (finalModel : List OMessage → Except String String)
    (pre post : List ToolCall) (tcf : ToolCall)
    (m : List OMessage) (a : List String) (f : List Affected) (d : List String)
    (args fullArgs : List (String × ArgVal)) (r : AWSResponse)
    (hcalls : modelMsg.tool_calls = pre ++ tcf :: post)
    (hpre : runToolCalls creds (_execute_function toolImpl) pre
        (openaiMessagesOf messages) [] [] = ⟨.ok (.inr (m, a, f)), d⟩)
    (_ha : a ≠ [])
    (hargs : tcf.arguments = .ok args)
    (hinj : injectArgs creds tcf.name args = some fullArgs)
    (hexec : _execute_function toolImpl tcf.name fullArgs = .awsResp r)
    (hrc : r.requires_credentials = true) :
    process_request messages creds modelMsg toolImpl finalModel =
      ⟨.ok { response := r.message, actions_taken := [], aws_resources_affected := [],
             validation_results := none, requiresCredentials := some true, error := none },
        d ++ [tcf.name], none⟩ := by
  have hne : modelMsg.tool_calls.isEmpty = false := by
    rw [hcalls]; cases pre <;> rfl
  have hstep : dispatchToolCall creds (_execute_function toolImpl) tcf m a f =
      (.early { response := r.message, actions_taken := [], aws_resources_affected := [],
                validation_results := none, requiresCredentials := some true,
                error := none }, true) := by
    simp only [dispatchToolCall, hargs, hinj, hexec, hrc]
    simp
  rw [process_request_toolpath _ _ _ _ _ hne, hcalls,
    runToolCalls_append pre (tcf :: post) hpre,
    runToolCalls_cons_early post hstep]
  rfl

/-- C10 witness: after one recorded success, an invalid-credentials
result yields a reply with empty `actions_taken` and empty
`aws_resources_affected`. -/
theorem credential_failure_drops_actions_witness :
    process_request [] (some credW) ⟨none, [tcW1, tcW2, tcW3]⟩ toolImplW2
        (fun _ => .ok "done") =
      ⟨.ok { response := some "Invalid AWS credentials provided. Please check your Access Key ID and Secret Access Key.",
             actions_taken := [], aws_resources_affected := [],
             validation_results := none, requiresCredentials := some true,
             error := none },
        ["get_s3_bucket_sizes", "list_ec2_instances"], none⟩ :=
  credential_failure_drops_actions [] (some credW) ⟨none, [tcW1, tcW2, tcW3]⟩
    toolImplW2 (fun _ => .ok "done") [tcW1] [tcW3] tcW2
    [OMessage.assistantToolCall "1" "get_s3_bucket_sizes" tcW1, OMessage.tool "null" "1"]
    ["Successfully executed get_s3_bucket_sizes"]
    [⟨"get_s3_bucket_sizes", []⟩]
    ["get_s3_bucket_sizes"]
    [] [("credentials", ArgVal.creds credW)]
    { success := false, data := Json.null,
      message := some "Invalid AWS credentials provided. Please check your Access Key ID and Secret Access Key.",
      requires_credentials := true }
    rfl rfl (List.cons_ne_nil _ _) rfl rfl rfl rfl
